import Mathlib

/-!
Verification development for the obs-rvc real-time voice-conversion filter
(`src/lib.rs`).  The geometry computation is modelled over `ℚ` (the Rust code
computes with `f64`; the durations involved are decimal settings values and no
computation in any claim lands on a rounding tie, so exact rational arithmetic
agrees with the `f64` evaluation at every input used here).  Audio samples are
modelled as real numbers; the host-rate and 16 kHz buffers, the SOLA buffer and
the queues are lists of reals.  Components that live outside `src/`
(`rt_utils`, the `RvcInfer` engine, the rubato resamplers) are modelled from
the specification and marked as such in their doc comments.
-/

namespace ObsRvc

/-- Rust `f64::round`: round half away from zero. -/
def rustRound (q : ℚ) : ℤ :=
  if 0 ≤ q then round q else -(round (-q))

/-- Rust `.round() as usize`: rounding followed by the saturating cast
(negative values clamp to zero). -/
def roundAsUsize (q : ℚ) : ℕ :=
  (rustRound q).toNat

/-- Inputs of the geometry computation: host sample rate, model output sample
rate (`dest_sample_rate`) and the three duration settings, in seconds. -/
structure GeometryInput where
  sample_rate : ℕ
  model_output_sample_rate : ℕ
  sample_length : ℚ
  crossfade_length : ℚ
  extra_inference_time : ℚ
deriving DecidableEq

/-- The derived geometry parameters (`RvcInferenceState` size fields plus
`zc`). -/
structure Geometry where
  zc : ℕ
  sample_frame_size : ℕ
  sample_frame_16k : ℕ
  crossfade_frame_size : ℕ
  sola_buffer_frame_size : ℕ
  sola_search_frame_size : ℕ
  extra_frame_size : ℕ
  model_return_length : ℕ
  model_return_size : ℕ
deriving DecidableEq

/-- Geometry computation as performed by `RvcInferenceFilter::create`
(lib.rs lines 172-196). -/
def computeGeometryCreate (inp : GeometryInput) : Geometry :=
  let zc := inp.sample_rate / 100
  let sample_frame_time :=
    roundAsUsize (inp.sample_length * inp.sample_rate / zc)
  let sample_frame_size := sample_frame_time * zc
  let sample_frame_16k := sample_frame_time * 160
  let crossfade_frame_size :=
    roundAsUsize (inp.crossfade_length * inp.sample_rate / zc) * zc
  let sola_buffer_frame_size := min crossfade_frame_size (4 * zc)
  let sola_search_frame_size := zc
  let extra_frame_size :=
    roundAsUsize (inp.extra_inference_time * inp.sample_rate / zc) * zc
  let model_return_length :=
    (sample_frame_size + sola_buffer_frame_size + sola_search_frame_size) / zc
  let model_return_size :=
    model_return_length * (inp.model_output_sample_rate / 100)
  ⟨zc, sample_frame_size, sample_frame_16k, crossfade_frame_size,
    sola_buffer_frame_size, sola_search_frame_size, extra_frame_size,
    model_return_length, model_return_size⟩

/-- Geometry computation as performed by `RvcInferenceFilter::update` in the
`recalculate_input_buffer` branch (lib.rs lines 438-448). -/
def computeGeometryUpdate (inp : GeometryInput) : Geometry :=
  let zc := inp.sample_rate / 100
  let sample_frame_time :=
    roundAsUsize (inp.sample_length * inp.sample_rate / zc)
  let sample_frame_size := sample_frame_time * zc
  let sample_frame_16k := sample_frame_time * 160
  let crossfade_frame_size :=
    roundAsUsize (inp.crossfade_length * inp.sample_rate / zc) * zc
  let sola_buffer_frame_size := min crossfade_frame_size (4 * zc)
  let sola_search_frame_size := zc
  let extra_frame_size :=
    roundAsUsize (inp.extra_inference_time * inp.sample_rate / zc) * zc
  let model_return_length :=
    (sample_frame_size + sola_buffer_frame_size + sola_search_frame_size) / zc
  let model_return_size :=
    model_return_length * (inp.model_output_sample_rate / 100)
  ⟨zc, sample_frame_size, sample_frame_16k, crossfade_frame_size,
    sola_buffer_frame_size, sola_search_frame_size, extra_frame_size,
    model_return_length, model_return_size⟩

/-- Size of the host-rate sliding input buffer
(`extra + crossfade + sola_search + sample`, lib.rs lines 189 and 460). -/
def input_buffer_total_size (g : Geometry) : ℕ :=
  g.extra_frame_size + g.crossfade_frame_size + g.sola_search_frame_size +
    g.sample_frame_size

/-- The `ndarray::Array1::linspace(0.0, 1.0, n)` grid: `n` evenly spaced
points from 0 to 1 (for `n = 1` the single point is the start, matching the
real-division-by-zero convention `0 / 0 = 0`). -/
noncomputable def linspace01 (n : ℕ) : List ℝ :=
  (List.range n).map (fun i : ℕ => (i : ℝ) / ((n : ℝ) - 1))

/-- Fade-in window, from lib.rs lines 200-201 and identically 466-467:
`linspace(0,1,n)` mapped through `sin(x * 0.5 * π)^2`. -/
noncomputable def fade_in_window (n : ℕ) : List ℝ :=
  (linspace01 n).map (fun x => Real.sin (x * (0.5 * Real.pi)) ^ 2)

/-- Fade-out window, from lib.rs lines 202 and 468: pointwise `1 - fade_in`. -/
noncomputable def fade_out_window (n : ℕ) : List ℝ :=
  (fade_in_window n).map (fun x => 1 - x)

/-- Modelled from the spec: the interface of the `RvcInfer` engine, whose
implementation is not under `src/`.  Spec section 6: `infer(window, pitch_shift,
resonance_shift, index_rate, loudness_blend) -> samples`. -/
def InferEngine : Type :=
  List ℝ → ℤ → ℚ → ℚ → ℚ → List ℝ

/-- The mutable engine state `RvcInferenceState` (lib.rs lines 72-107), with
the model/index paths omitted.  The two rubato resamplers are external crate
collaborators; they are abstracted as block maps from input block to output
block (their cross-call filter history is irrelevant to every claim below,
which quantifies over arbitrary resampler behaviour). -/
structure EngineState where
  model_output_sample_rate : ℕ
  pitch_shift : ℤ
  resonance_shift : ℚ
  index_rate : ℚ
  rms_mix_rate : ℚ
  sample_length : ℚ
  crossfade_length : ℚ
  extra_inference_time : ℚ
  sample_rate : ℕ
  sample_frame_size : ℕ
  sample_frame_16k : ℕ
  crossfade_frame_size : ℕ
  sola_buffer_frame_size : ℕ
  sola_search_frame_size : ℕ
  extra_frame_size : ℕ
  model_return_length : ℕ
  model_return_size : ℕ
  input_buffer : List ℝ
  input_buffer_16k : List ℝ
  sola_buffer : List ℝ
  output_buffer : List ℝ
  fade_in_window : List ℝ
  fade_out_window : List ℝ
  upsampler : List ℝ → List ℝ
  downsampler : List ℝ → List ℝ
  engine : InferEngine

/-- The three shared FIFO queues of `RvcInferenceSharedState`
(lib.rs lines 109-118): input samples, output samples, timestamps. -/
structure Queues where
  input : List ℝ
  output : List ℝ
  timestamps : List ℕ

/-- Sliding-window update: shift the buffer left by `shift` (discarding the
oldest samples) and write the fresh block into the vacated tail
(`copy_within` plus tail `copy_from_slice`, lib.rs lines 536-538 and 544-550;
the fresh block has exactly the length of the vacated tail at every call
site). -/
def slide_buffer (buf : List ℝ) (shift : ℕ) (fresh : List ℝ) : List ℝ :=
  buf.drop shift ++ fresh

/-- The buffer handed to the upsampler as this frame's inference result.  In
the source the call to the engine is commented out (lib.rs line 566) and a
zero vector of length `model_return_size` is used instead (lib.rs line 567). -/
def inference_output (s : EngineState) : List ℝ :=
  List.replicate s.model_return_size (0 : ℝ)

/-- Modelled from the spec: `rt_utils::get_sola_offset` is not under `src/`.
Spec section 4.5 step 5: select the offset in `[0, sola_search_frame_size)`
maximizing the normalized cross-correlation of the stored SOLA buffer against
the candidate window of `sola_buffer_frame_size` samples of the time
reference; the score used here, `corr * |corr| / energy`, orders offsets
exactly as the normalized cross-correlation `corr / sqrt(energy)` does. -/
noncomputable def solaScore (reference sola : List ℝ) (n o : ℕ) : ℝ :=
  let w := (reference.drop o).take n
  let corr := (List.zipWith (· * ·) sola w).sum
  corr * |corr| / (w.map (fun x => x * x)).sum

/-- Modelled from the spec: argmax of `solaScore` over offsets
`0, 1, ..., sola_search_frame_size - 1` (first maximum wins, default 0). -/
noncomputable def get_sola_offset (reference sola : List ℝ)
    (sola_buffer_frame_size sola_search_frame_size : ℕ) : ℕ :=
  (List.range sola_search_frame_size).foldl
    (fun best o =>
      if solaScore reference sola sola_buffer_frame_size best <
          solaScore reference sola sola_buffer_frame_size o then o else best) 0

/-- The per-frame DSP algorithm `process_one_frame` (lib.rs lines 531-611):
slide the host-rate buffer, slide and downsample into the 16 kHz buffer,
take the (stubbed) inference output, upsample it into the output buffer,
find the SOLA offset, crossfade the head of the offset output against the
stored SOLA buffer, store the next SOLA buffer, and return the first
`sample_frame_size` blended samples.  Returns the emitted chunk and the
updated state.  The elementwise ndarray operations are modelled pointwise
with `getD` (the source slices assume the window fits, which holds for the
geometry produced by creation/reconfiguration). -/
noncomputable def process_one_frame (input_sample : List ℝ) (s : EngineState) :
    List ℝ × EngineState :=
  let input_buffer := slide_buffer s.input_buffer s.sample_frame_size input_sample
  let input_buffer_16k :=
    slide_buffer s.input_buffer_16k s.sample_frame_16k (s.downsampler input_sample)
  let upsampled := s.upsampler (inference_output s)
  let sola_offset :=
    get_sola_offset input_buffer s.sola_buffer s.sola_buffer_frame_size
      s.sola_search_frame_size
  let offset_out := upsampled.drop sola_offset
  let blended_head :=
    (List.range s.sola_buffer_frame_size).map (fun i =>
      offset_out.getD i 0 * s.fade_in_window.getD i 0 +
        s.sola_buffer.getD i 0 * s.fade_out_window.getD i 0)
  let blended := blended_head ++ offset_out.drop s.sola_buffer_frame_size
  let sola_buffer' := (blended.drop s.sample_frame_size).take s.sola_buffer_frame_size
  (blended.take s.sample_frame_size,
    { s with
      input_buffer := input_buffer,
      input_buffer_16k := input_buffer_16k,
      output_buffer := upsampled.take sola_offset ++ blended,
      sola_buffer := sola_buffer' })

/-- One iteration of the worker loop body once the engine-state lock is held
(`thread_loop`, lib.rs lines 620-643): if fewer than `sample_frame_size`
samples are queued, wait (no state change in this model); otherwise drain
exactly `sample_frame_size` samples from the head of the input queue, process
them, and append the processed chunk to the output queue. -/
noncomputable def thread_loop_iter (q : Queues) (s : EngineState) :
    Queues × EngineState :=
  if q.input.length < s.sample_frame_size then (q, s)
  else
    let input_sample := q.input.take s.sample_frame_size
    let pr := process_one_frame input_sample s
    ({ q with
        input := q.input.drop s.sample_frame_size,
        output := q.output ++ pr.1 },
      pr.2)

/-- The `recalculate_input_buffer` branch of `RvcInferenceFilter::update`
(lib.rs lines 430-485), taken on a state that already holds the freshly
assigned settings: recompute the geometry, resize and zero-fill the two
sliding input buffers, rebuild the fade windows, and clear the input and
output queues.  The SOLA buffer, the output buffer, the resamplers and the
timestamp queue are not touched by the source. -/
noncomputable def update_recalculate (sample_rate : ℕ) (s : EngineState)
    (q : Queues) : EngineState × Queues :=
  let g := computeGeometryUpdate
    ⟨sample_rate, s.model_output_sample_rate, s.sample_length,
      s.crossfade_length, s.extra_inference_time⟩
  let input_buffer_size := input_buffer_total_size g
  ({ s with
      sample_rate := sample_rate,
      sample_frame_size := g.sample_frame_size,
      sample_frame_16k := g.sample_frame_16k,
      crossfade_frame_size := g.crossfade_frame_size,
      sola_buffer_frame_size := g.sola_buffer_frame_size,
      sola_search_frame_size := g.sola_search_frame_size,
      extra_frame_size := g.extra_frame_size,
      model_return_length := g.model_return_length,
      model_return_size := g.model_return_size,
      input_buffer := List.replicate input_buffer_size 0,
      input_buffer_16k := List.replicate (160 * input_buffer_size / g.zc) 0,
      fade_in_window := fade_in_window g.sola_buffer_frame_size,
      fade_out_window := fade_out_window g.sola_buffer_frame_size },
    { q with input := [], output := [] })

/-- A multichannel host audio frame with its timestamp
(`audio::AudioDataContext`). -/
structure AudioData where
  data : List (List ℝ)
  timestamp : ℕ

/-- Result of one `filter_audio` call. -/
inductive FilterAudioResult where
  | Modified : FilterAudioResult
  | Discarded : FilterAudioResult
deriving DecidableEq

/-- Modelled from the spec: `rt_utils::downmix_to_mono` is not under `src/`.
Spec section 4.3: the mono channel is the arithmetic mean across channels. -/
noncomputable def downmix_to_mono (a : AudioData) : List ℝ :=
  match a.data with
  | [] => []
  | c :: _ =>
    (List.range c.length).map (fun i =>
      (a.data.map (fun ch => ch.getD i 0)).sum / (a.data.length : ℝ))

/-- The audio callback `RvcInferenceFilter::filter_audio`
(lib.rs lines 491-528): downmix to mono, push the mono samples and the
frame's timestamp, then try to drain exactly `frame_len` output samples.
If the output queue is short the frame is Discarded (nothing drained, frame
untouched); otherwise the drained samples overwrite the frame, the dequeued
timestamp is restored onto it, and the mono data is upmixed by broadcasting
to every channel (`rt_utils::upmix_audio_data_context`, modelled from the
spec as the broadcast of the processed channel).  Returns the updated
queues, the (possibly rewritten) frame, and the result. -/
noncomputable def filter_audio (q : Queues) (a : AudioData) :
    Queues × AudioData × FilterAudioResult :=
  let main := downmix_to_mono a
  let frame_len := main.length
  let input' := q.input ++ main
  let ts_pushed := q.timestamps ++ [a.timestamp]
  if q.output.length < frame_len then
    (⟨input', q.output, ts_pushed⟩, a, .Discarded)
  else
    let drained := q.output.take frame_len
    (⟨input', q.output.drop frame_len, ts_pushed.tail⟩,
      ⟨a.data.map (fun _ => drained), ts_pushed.headD a.timestamp⟩,
      .Modified)

/-- Events of the two-thread system, serialized: a host callback invocation,
one worker-loop iteration, or a reconfiguration carrying the new
rate/duration settings. -/
inductive Event where
  | host : AudioData → Event
  | work : Event
  | reconfig : ℕ → ℚ → ℚ → ℚ → ℕ → Event

/-- Whether an event is a reconfiguration. -/
def isReconfig : Event → Bool
  | .reconfig _ _ _ _ _ => true
  | _ => false

/-- Whole-system state: the locked engine state plus the shared queues. -/
structure Sys where
  state : EngineState
  queues : Queues

/-- One serialized step of the system.  A host event runs `filter_audio` and
emits the frame's reported timestamp when the frame is Modified; a work event
runs one worker-loop iteration; a reconfig event assigns the new settings
into the state (lib.rs lines 384-410) and runs the recalculate branch. -/
noncomputable def stepEv (sys : Sys) : Event → Sys × List ℕ
  | .host a =>
    let r := filter_audio sys.queues a
    (⟨sys.state, r.1⟩,
      match r.2.2 with
      | .Modified => [r.2.1.timestamp]
      | .Discarded => [])
  | .work =>
    let r := thread_loop_iter sys.queues sys.state
    (⟨r.2, r.1⟩, [])
  | .reconfig sr sl cl et mosr =>
    let s' := { sys.state with
      sample_length := sl,
      crossfade_length := cl,
      extra_inference_time := et,
      model_output_sample_rate := mosr }
    let r := update_recalculate sr s' sys.queues
    (⟨r.1, r.2⟩, [])

/-- Run a trace of events, collecting the timestamps reported by Modified
host frames, in order. -/
noncomputable def runTrace (sys : Sys) : List Event → Sys × List ℕ
  | [] => (sys, [])
  | e :: rest =>
    let r1 := stepEv sys e
    let r2 := runTrace r1.1 rest
    (r2.1, r1.2 ++ r2.2)

/-- The timestamps pushed by the host events of a trace, in order. -/
def hostTimestamps : List Event → List ℕ
  | [] => []
  | .host a :: rest => a.timestamp :: hostTimestamps rest
  | .work :: rest => hostTimestamps rest
  | .reconfig _ _ _ _ _ :: rest => hostTimestamps rest

/-- The state with the inference-relevant settings replaced: a fresh engine
and fresh pitch-shift, resonance-shift, index-rate and loudness-blend
values. -/
def withInferenceParams (s : EngineState) (e : InferEngine) (p : ℤ)
    (r i l : ℚ) : EngineState :=
  { s with
      engine := e
      pitch_shift := p
      resonance_shift := r
      index_rate := i
      rms_mix_rate := l }

/-- A small concrete engine state used to instantiate theorems on explicit
inputs. -/
def witnessState : EngineState where
  model_output_sample_rate := 40000
  pitch_shift := 12
  resonance_shift := 7/100
  index_rate := 0
  rms_mix_rate := 1/2
  sample_length := 3/10
  crossfade_length := 7/100
  extra_inference_time := 2
  sample_rate := 48000
  sample_frame_size := 1
  sample_frame_16k := 1
  crossfade_frame_size := 1
  sola_buffer_frame_size := 1
  sola_search_frame_size := 1
  extra_frame_size := 0
  model_return_length := 1
  model_return_size := 1
  input_buffer := []
  input_buffer_16k := []
  sola_buffer := [0]
  output_buffer := []
  fade_in_window := [1]
  fade_out_window := [0]
  upsampler := fun _ => [0, 0, 0]
  downsampler := fun _ => []
  engine := fun _ _ _ _ _ => []

/-- A concrete engine state whose crossfade duration rounds to zero frames. -/
def degenerateState : EngineState :=
  { witnessState with crossfade_length := 1/1000 }

/-- A concrete two-frame host trace on empty channel data. -/
def witnessTrace : List Event :=
  [Event.host ⟨[], 5⟩, Event.host ⟨[], 9⟩]

/-- A concrete queue state with one queued input sample. -/
def witnessQueues : Queues :=
  ⟨[0], [], []⟩

theorem cons_headD_tail {α : Type} (l : List α) (h : l ≠ []) (d : α) :
    l.headD d :: l.tail = l := by
  cases l with
  | nil => exact absurd rfl h
  | cons x xs => rfl

theorem thread_loop_iter_timestamps (q : Queues) (s : EngineState) :
    (thread_loop_iter q s).1.timestamps = q.timestamps := by
  unfold thread_loop_iter
  split <;> rfl

theorem hostTimestamps_cons (e : Event) (rest : List Event) :
    hostTimestamps (e :: rest) = hostTimestamps [e] ++ hostTimestamps rest := by
  cases e <;> rfl

/-- One step leaves the concatenation of the emitted timestamps with the
queued timestamps equal to the previously queued timestamps followed by the
newly pushed ones. -/
theorem stepEv_ts_concat (sys : Sys) (e : Event) :
    (stepEv sys e).2 ++ (stepEv sys e).1.queues.timestamps =
      sys.queues.timestamps ++ hostTimestamps [e] := by
  cases e with
  | host a =>
    by_cases h : sys.queues.output.length < (downmix_to_mono a).length
    · simp [stepEv, filter_audio, h, hostTimestamps]
    · simp only [stepEv, filter_audio, hostTimestamps]
      rw [if_neg h]
      exact cons_headD_tail (sys.queues.timestamps ++ [a.timestamp])
        (by simp) a.timestamp
  | work =>
    simp [stepEv, thread_loop_iter_timestamps, hostTimestamps]
  | reconfig sr sl cl et mosr =>
    simp [stepEv, update_recalculate, hostTimestamps]

/-- Trace-level FIFO accounting: the timestamps reported on Modified frames,
followed by the timestamps still queued, equal the initially queued
timestamps followed by all pushed ones, in order. -/
theorem runTrace_ts_concat (evs : List Event) (sys : Sys) :
    (runTrace sys evs).2 ++ (runTrace sys evs).1.queues.timestamps =
      sys.queues.timestamps ++ hostTimestamps evs := by
  induction evs generalizing sys with
  | nil => simp [runTrace, hostTimestamps]
  | cons e rest ih =>
    have hstep := stepEv_ts_concat sys e
    have htail := ih (stepEv sys e).1
    calc (runTrace sys (e :: rest)).2 ++
          (runTrace sys (e :: rest)).1.queues.timestamps
        = (stepEv sys e).2 ++ ((runTrace (stepEv sys e).1 rest).2 ++
            (runTrace (stepEv sys e).1 rest).1.queues.timestamps) := by
          simp [runTrace]
      _ = (stepEv sys e).2 ++ ((stepEv sys e).1.queues.timestamps ++
            hostTimestamps rest) := by rw [htail]
      _ = ((stepEv sys e).2 ++ (stepEv sys e).1.queues.timestamps) ++
            hostTimestamps rest := by rw [List.append_assoc]
      _ = (sys.queues.timestamps ++ hostTimestamps [e]) ++
            hostTimestamps rest := by rw [hstep]
      _ = sys.queues.timestamps ++ hostTimestamps (e :: rest) := by
          rw [List.append_assoc, ← hostTimestamps_cons]

/-- The emitted timestamps are the leading prefix of initial-plus-pushed
timestamps, and the queue retains exactly the remaining suffix. -/
theorem runTrace_pairing (evs : List Event) (sys : Sys) :
    (runTrace sys evs).2 =
      (sys.queues.timestamps ++ hostTimestamps evs).take
        (runTrace sys evs).2.length ∧
    (runTrace sys evs).1.queues.timestamps =
      (sys.queues.timestamps ++ hostTimestamps evs).drop
        (runTrace sys evs).2.length := by
  have h := runTrace_ts_concat evs sys
  constructor
  · rw [← h, List.take_left]
  · rw [← h, List.drop_left]

theorem getD_append_left {α : Type} (l₁ l₂ : List α) (k : ℕ) (d : α)
    (h : k < l₁.length) : (l₁ ++ l₂).getD k d = l₁.getD k d := by
  rw [List.getD_eq_getElem?_getD, List.getD_eq_getElem?_getD,
    List.getElem?_append_left h]

theorem getD_append_right {α : Type} (l₁ l₂ : List α) (k : ℕ) (d : α)
    (h : l₁.length ≤ k) :
    (l₁ ++ l₂).getD k d = l₂.getD (k - l₁.length) d := by
  rw [List.getD_eq_getElem?_getD, List.getD_eq_getElem?_getD,
    List.getElem?_append_right h]

theorem getD_take {α : Type} (l : List α) (n k : ℕ) (d : α) (h : k < n) :
    (l.take n).getD k d = l.getD k d := by
  rw [List.getD_eq_getElem?_getD, List.getD_eq_getElem?_getD,
    List.getElem?_take, if_pos h]

theorem getD_drop {α : Type} (l : List α) (n k : ℕ) (d : α) :
    (l.drop n).getD k d = l.getD (n + k) d := by
  rw [List.getD_eq_getElem?_getD, List.getD_eq_getElem?_getD,
    List.getElem?_drop]

theorem range_map_getD (f : ℕ → ℝ) (n i : ℕ) (hi : i < n) :
    ((List.range n).map f).getD i 0 = f i := by
  rw [List.getD_eq_getElem?_getD, List.getElem?_map, List.getElem?_range hi]
  rfl

theorem fade_in_window_length (n : ℕ) : (fade_in_window n).length = n := by
  simp [fade_in_window, linspace01]

theorem fade_out_window_length (n : ℕ) : (fade_out_window n).length = n := by
  simp [fade_out_window, fade_in_window, linspace01]

theorem fade_in_window_getD (n i : ℕ) (hi : i < n) :
    (fade_in_window n).getD i 0 =
      Real.sin ((i : ℝ) / ((n : ℝ) - 1) * (0.5 * Real.pi)) ^ 2 := by
  unfold fade_in_window linspace01
  rw [List.map_map]
  exact range_map_getD _ n i hi

theorem fade_out_window_getD (n i : ℕ) (hi : i < n) :
    (fade_out_window n).getD i 0 = 1 - (fade_in_window n).getD i 0 := by
  have hlen : i < (fade_in_window n).length := by
    rw [fade_in_window_length]
    exact hi
  unfold fade_out_window
  simp [List.getD_eq_getElem?_getD, List.getElem?_map,
    List.getElem?_eq_getElem hlen]

theorem div_le_div_of_nonneg_right' {a b c : ℝ} (hab : a ≤ b) (hc : 0 < c) :
    a / c ≤ b / c := by
  rw [div_le_div_iff₀ hc hc]
  nlinarith

theorem linspace_bounds {n i j : ℕ} (hj : j < n) (hij : i ≤ j) :
    0 ≤ (i : ℝ) / ((n : ℝ) - 1) ∧
    (i : ℝ) / ((n : ℝ) - 1) ≤ (j : ℝ) / ((n : ℝ) - 1) ∧
    (j : ℝ) / ((n : ℝ) - 1) ≤ 1 := by
  rcases Nat.lt_or_ge n 2 with h2 | h2
  · have hn : n = 1 := by omega
    have hj0 : j = 0 := by omega
    have hi0 : i = 0 := by omega
    subst hn hj0 hi0
    norm_num
  · have hd : (0 : ℝ) < (n : ℝ) - 1 := by
      have : (2 : ℝ) ≤ (n : ℝ) := by exact_mod_cast h2
      linarith
    refine ⟨div_nonneg (Nat.cast_nonneg i) hd.le, ?_, ?_⟩
    · have hij' : (i : ℝ) ≤ (j : ℝ) := by exact_mod_cast hij
      exact div_le_div_of_nonneg_right' hij' hd
    · rw [div_le_one hd]
      have : (j : ℝ) + 1 ≤ (n : ℝ) := by exact_mod_cast hj
      linarith

theorem sin_sq_half_pi_mono {a b : ℝ} (ha : 0 ≤ a) (hab : a ≤ b) (hb : b ≤ 1) :
    Real.sin (a * (0.5 * Real.pi)) ^ 2 ≤
      Real.sin (b * (0.5 * Real.pi)) ^ 2 := by
  have hpi := Real.pi_pos
  have hxa : 0 ≤ a * (0.5 * Real.pi) := by positivity
  have hab' : a * (0.5 * Real.pi) ≤ b * (0.5 * Real.pi) := by nlinarith
  have hbpi : b * (0.5 * Real.pi) ≤ Real.pi / 2 := by nlinarith
  have hsa : 0 ≤ Real.sin (a * (0.5 * Real.pi)) :=
    Real.sin_nonneg_of_nonneg_of_le_pi hxa (by nlinarith)
  have hmono : Real.sin (a * (0.5 * Real.pi)) ≤
      Real.sin (b * (0.5 * Real.pi)) :=
    Real.sin_le_sin_of_le_of_le_pi_div_two (by nlinarith) hbpi hab'
  exact pow_le_pow_left₀ hsa hmono 2

/-- C5: both fade windows have length sola_buffer_frame_size; the fade-in
value at index i is the square of the sine of half pi times the linearly
spaced grid point; fade-in plus fade-out is one at every index; and fade-in
is monotonically non-decreasing. -/
theorem fade_window_properties (n i j : ℕ) (hi : i < n) (hj : j < n)
    (hij : i ≤ j) :
    (fade_in_window n).length = n ∧
    (fade_out_window n).length = n ∧
    (fade_in_window n).getD i 0 =
      Real.sin (0.5 * Real.pi * ((i : ℝ) / ((n : ℝ) - 1))) ^ 2 ∧
    (fade_in_window n).getD i 0 + (fade_out_window n).getD i 0 = 1 ∧
    (fade_in_window n).getD i 0 ≤ (fade_in_window n).getD j 0 := by
  obtain ⟨h0, h1, h2⟩ := linspace_bounds hj hij
  refine ⟨fade_in_window_length n, fade_out_window_length n, ?_, ?_, ?_⟩
  · rw [fade_in_window_getD n i hi,
      mul_comm ((i : ℝ) / ((n : ℝ) - 1)) (0.5 * Real.pi)]
  · rw [fade_out_window_getD n i hi]
    ring
  · rw [fade_in_window_getD n i hi, fade_in_window_getD n j hj]
    exact sin_sq_half_pi_mono h0 h1 h2

/-- Witness for `fade_window_properties` at window length 2, indices 0
and 1. -/
theorem fade_window_properties_witness :
    (0 < 2 ∧ 1 < 2 ∧ 0 ≤ 1) ∧
    ((fade_in_window 2).length = 2 ∧
      (fade_out_window 2).length = 2 ∧
      (fade_in_window 2).getD 0 0 =
        Real.sin (0.5 * Real.pi * ((0 : ℝ) / ((2 : ℝ) - 1))) ^ 2 ∧
      (fade_in_window 2).getD 0 0 + (fade_out_window 2).getD 0 0 = 1 ∧
      (fade_in_window 2).getD 0 0 ≤ (fade_in_window 2).getD 1 0) := by
  refine ⟨⟨by decide, by decide, by decide⟩, ?_⟩
  have h := fade_window_properties 2 0 1 (by decide) (by decide) (by decide)
  exact_mod_cast h

/-- C3: for sample_rate 48000, sample_length 0.30, crossfade_length 0.07,
extra_inference_time 2.00 and model_output_sample_rate 40000, the geometry
computation yields zc 480, sample_frame_size 14400, crossfade_frame_size
3360, sola_buffer_frame_size 1920 and sola_search_frame_size 480. -/
theorem geometry_scenario_a :
    (computeGeometryCreate ⟨48000, 40000, 3/10, 7/100, 2⟩).zc = 480 ∧
    (computeGeometryCreate ⟨48000, 40000, 3/10, 7/100, 2⟩).sample_frame_size
      = 14400 ∧
    (computeGeometryCreate ⟨48000, 40000, 3/10, 7/100, 2⟩).crossfade_frame_size
      = 3360 ∧
    (computeGeometryCreate
        ⟨48000, 40000, 3/10, 7/100, 2⟩).sola_buffer_frame_size = 1920 ∧
    (computeGeometryCreate
        ⟨48000, 40000, 3/10, 7/100, 2⟩).sola_search_frame_size = 480 := by
  have h30 : roundAsUsize ((3/10 : ℚ) * 48000 / 480) = 30 := by
    norm_num [roundAsUsize, rustRound]; rfl
  have h7 : roundAsUsize ((7/100 : ℚ) * 48000 / 480) = 7 := by
    norm_num [roundAsUsize, rustRound]; rfl
  refine ⟨rfl, ?_, ?_, ?_, rfl⟩ <;>
    simp [computeGeometryCreate, h30, h7]

/-- C4: the geometry computation at creation and the one at reconfiguration
agree on every geometry parameter for identical inputs, and recomputation on
equal inputs is deterministic. -/
theorem geometry_create_eq_update (inp inp' : GeometryInput) (h : inp = inp') :
    computeGeometryCreate inp = computeGeometryUpdate inp' ∧
    computeGeometryUpdate inp = computeGeometryUpdate inp' := by
  subst h
  exact ⟨rfl, rfl⟩

/-- Witness for `geometry_create_eq_update` at the scenario-A inputs. -/
theorem geometry_create_eq_update_witness :
    (⟨48000, 40000, 3/10, 7/100, 2⟩ : GeometryInput) =
      ⟨48000, 40000, 3/10, 7/100, 2⟩ ∧
    (computeGeometryCreate ⟨48000, 40000, 3/10, 7/100, 2⟩ =
        computeGeometryUpdate ⟨48000, 40000, 3/10, 7/100, 2⟩ ∧
      computeGeometryUpdate ⟨48000, 40000, 3/10, 7/100, 2⟩ =
        computeGeometryUpdate ⟨48000, 40000, 3/10, 7/100, 2⟩) :=
  ⟨rfl, geometry_create_eq_update _ _ rfl⟩

/-- C1: in the source the inference engine is never consulted by
process_one_frame — the call is commented out and a zero vector of length
model_return_size is what reaches the upsampling step, so the processed
frame is independent of the engine and of the pitch-shift, resonance-shift,
index-rate and loudness-blend parameters. -/
theorem inference_engine_unused (s : EngineState) (x : List ℝ)
    (e₁ e₂ : InferEngine) (p₁ p₂ : ℤ) (r₁ r₂ i₁ i₂ l₁ l₂ : ℚ) :
    inference_output s = List.replicate s.model_return_size 0 ∧
    (process_one_frame x (withInferenceParams s e₁ p₁ r₁ i₁ l₁)).1 =
      (process_one_frame x (withInferenceParams s e₂ p₂ r₂ i₂ l₂)).1 ∧
    (process_one_frame x
        (withInferenceParams s e₁ p₁ r₁ i₁ l₁)).2.output_buffer =
      (process_one_frame x
        (withInferenceParams s e₂ p₂ r₂ i₂ l₂)).2.output_buffer ∧
    (process_one_frame x (withInferenceParams s e₁ p₁ r₁ i₁ l₁)).2.sola_buffer =
      (process_one_frame x
        (withInferenceParams s e₂ p₂ r₂ i₂ l₂)).2.sola_buffer :=
  ⟨rfl, rfl, rfl, rfl⟩

/-- C2: the recalculate branch of update clears the input and output queues
and zero-fills the two sliding input buffers at their new sizes, but leaves
the SOLA buffer (and the output buffer) exactly as they were — they are
neither resized nor zero-filled. -/
theorem reconfig_sola_buffer_not_cleared (sr : ℕ) (s : EngineState)
    (q : Queues) :
    (update_recalculate sr s q).2.input = [] ∧
    (update_recalculate sr s q).2.output = [] ∧
    (update_recalculate sr s q).1.input_buffer =
      List.replicate
        (input_buffer_total_size (computeGeometryUpdate
          ⟨sr, s.model_output_sample_rate, s.sample_length, s.crossfade_length,
            s.extra_inference_time⟩)) 0 ∧
    (update_recalculate sr s q).1.input_buffer_16k =
      List.replicate
        (160 * input_buffer_total_size (computeGeometryUpdate
          ⟨sr, s.model_output_sample_rate, s.sample_length, s.crossfade_length,
            s.extra_inference_time⟩) /
          (computeGeometryUpdate
            ⟨sr, s.model_output_sample_rate, s.sample_length,
              s.crossfade_length, s.extra_inference_time⟩).zc) 0 ∧
    (update_recalculate sr s q).1.sola_buffer = s.sola_buffer ∧
    (update_recalculate sr s q).1.output_buffer = s.output_buffer :=
  ⟨rfl, rfl, rfl, rfl, rfl, rfl⟩

/-- C10: the recalculate branch of update clears the input and output queues
but leaves the timestamp queue unchanged, and in any trace of host, worker
and reconfiguration steps the timestamps reported on Modified frames are the
leading prefix, in FIFO order, of the initially queued timestamps followed
by the pushed ones. -/
theorem reconfig_preserves_timestamp_queue :
    (∀ (sr : ℕ) (s : EngineState) (q : Queues),
      (update_recalculate sr s q).2.input = [] ∧
      (update_recalculate sr s q).2.output = [] ∧
      (update_recalculate sr s q).2.timestamps = q.timestamps) ∧
    (∀ (evs : List Event) (sys : Sys),
      (runTrace sys evs).2 =
        (sys.queues.timestamps ++ hostTimestamps evs).take
          (runTrace sys evs).2.length) :=
  ⟨fun _ _ _ => ⟨rfl, rfl, rfl⟩, fun evs sys => (runTrace_pairing evs sys).1⟩

/-- C7: starting from an empty timestamp queue, over a trace without
reconfigurations every host invocation pushes exactly one timestamp, every
Modified invocation pops exactly one, and the Kth Modified frame reports the
Kth pushed timestamp: the reported timestamps are the leading prefix of the
pushed ones and the queue retains the remaining suffix. -/
theorem timestamp_fifo_pairing (evs : List Event) (sys : Sys)
    (h0 : sys.queues.timestamps = [])
    (_hnr : ∀ e ∈ evs, isReconfig e = false) :
    (runTrace sys evs).2 =
      (hostTimestamps evs).take (runTrace sys evs).2.length ∧
    (runTrace sys evs).1.queues.timestamps =
      (hostTimestamps evs).drop (runTrace sys evs).2.length ∧
    (runTrace sys evs).2.length +
        (runTrace sys evs).1.queues.timestamps.length =
      (hostTimestamps evs).length := by
  have h := runTrace_ts_concat evs sys
  rw [h0, List.nil_append] at h
  refine ⟨?_, ?_, ?_⟩
  · rw [← h, List.take_left]
  · rw [← h, List.drop_left]
  · rw [← h, List.length_append]

/-- Witness for `timestamp_fifo_pairing` on a concrete two-frame trace. -/
theorem timestamp_fifo_pairing_witness :
    ((⟨witnessState, ⟨[], [], []⟩⟩ : Sys).queues.timestamps = [] ∧
      (∀ e ∈ witnessTrace, isReconfig e = false)) ∧
    ((runTrace ⟨witnessState, ⟨[], [], []⟩⟩ witnessTrace).2 =
        (hostTimestamps witnessTrace).take
          (runTrace ⟨witnessState, ⟨[], [], []⟩⟩ witnessTrace).2.length ∧
      (runTrace ⟨witnessState, ⟨[], [], []⟩⟩
            witnessTrace).1.queues.timestamps =
        (hostTimestamps witnessTrace).drop
          (runTrace ⟨witnessState, ⟨[], [], []⟩⟩ witnessTrace).2.length ∧
      (runTrace ⟨witnessState, ⟨[], [], []⟩⟩ witnessTrace).2.length +
          (runTrace ⟨witnessState, ⟨[], [], []⟩⟩
            witnessTrace).1.queues.timestamps.length =
        (hostTimestamps witnessTrace).length) :=
  ⟨⟨rfl, by
      intro e he
      simp only [witnessTrace, List.mem_cons, List.not_mem_nil, or_false] at he
      rcases he with rfl | rfl <;> rfl⟩,
    timestamp_fifo_pairing witnessTrace ⟨witnessState, ⟨[], [], []⟩⟩ rfl
      (by
        intro e he
        simp only [witnessTrace, List.mem_cons, List.not_mem_nil,
          or_false] at he
        rcases he with rfl | rfl <;> rfl)⟩

/-- C6: the drain in filter_audio is all-or-nothing: the call returns
Discarded, leaving the output queue undrained and the frame untouched,
exactly when the output queue holds fewer samples than the frame length;
otherwise it removes exactly frame_len samples from the head of the output
queue, overwrites the frame with them on every channel, restores the
dequeued timestamp, and returns Modified. -/
theorem filter_audio_all_or_nothing (q : Queues) (a : AudioData) :
    ((filter_audio q a).2.2 = FilterAudioResult.Discarded ↔
      q.output.length < (downmix_to_mono a).length) ∧
    (q.output.length < (downmix_to_mono a).length →
      (filter_audio q a).1.output = q.output ∧ (filter_audio q a).2.1 = a) ∧
    ((downmix_to_mono a).length ≤ q.output.length →
      (filter_audio q a).2.2 = FilterAudioResult.Modified ∧
      (filter_audio q a).1.output =
        q.output.drop (downmix_to_mono a).length ∧
      (q.output.take (downmix_to_mono a).length).length =
        (downmix_to_mono a).length ∧
      (filter_audio q a).2.1.data =
        a.data.map (fun _ => q.output.take (downmix_to_mono a).length) ∧
      (filter_audio q a).2.1.timestamp =
        (q.timestamps ++ [a.timestamp]).headD a.timestamp) := by
  by_cases h : q.output.length < (downmix_to_mono a).length
  · refine ⟨by simp [filter_audio, h], fun _ => ⟨by simp [filter_audio, h],
      by simp [filter_audio, h]⟩, fun hle => absurd hle (by omega)⟩
  · refine ⟨by simp [filter_audio, h], fun hlt => absurd hlt h, fun _ =>
      ⟨by simp [filter_audio, h], by simp [filter_audio, h],
        by simp [List.length_take]; omega,
        by simp [filter_audio, h], by simp [filter_audio, h]⟩⟩

/-- Witness for `filter_audio_all_or_nothing` on a one-channel one-sample
frame with one queued output sample. -/
theorem filter_audio_all_or_nothing_witness :
    ((filter_audio ⟨[], [2], []⟩ ⟨[[5]], 7⟩).2.2 =
        FilterAudioResult.Discarded ↔
      (⟨[], [2], []⟩ : Queues).output.length <
        (downmix_to_mono ⟨[[5]], 7⟩).length) ∧
    ((⟨[], [2], []⟩ : Queues).output.length <
        (downmix_to_mono ⟨[[5]], 7⟩).length →
      (filter_audio ⟨[], [2], []⟩ ⟨[[5]], 7⟩).1.output =
          (⟨[], [2], []⟩ : Queues).output ∧
        (filter_audio ⟨[], [2], []⟩ ⟨[[5]], 7⟩).2.1 = ⟨[[5]], 7⟩) ∧
    ((downmix_to_mono ⟨[[5]], 7⟩).length ≤
        (⟨[], [2], []⟩ : Queues).output.length →
      (filter_audio ⟨[], [2], []⟩ ⟨[[5]], 7⟩).2.2 =
          FilterAudioResult.Modified ∧
        (filter_audio ⟨[], [2], []⟩ ⟨[[5]], 7⟩).1.output =
          (⟨[], [2], []⟩ : Queues).output.drop
            (downmix_to_mono ⟨[[5]], 7⟩).length ∧
        ((⟨[], [2], []⟩ : Queues).output.take
            (downmix_to_mono ⟨[[5]], 7⟩).length).length =
          (downmix_to_mono ⟨[[5]], 7⟩).length ∧
        (filter_audio ⟨[], [2], []⟩ ⟨[[5]], 7⟩).2.1.data =
          (⟨[[5]], 7⟩ : AudioData).data.map
            (fun _ => (⟨[], [2], []⟩ : Queues).output.take
              (downmix_to_mono ⟨[[5]], 7⟩).length) ∧
        (filter_audio ⟨[], [2], []⟩ ⟨[[5]], 7⟩).2.1.timestamp =
          ((⟨[], [2], []⟩ : Queues).timestamps ++
            [(⟨[[5]], 7⟩ : AudioData).timestamp]).headD
            (⟨[[5]], 7⟩ : AudioData).timestamp) :=
  filter_audio_all_or_nothing ⟨[], [2], []⟩ ⟨[[5]], 7⟩

/-- C9: no guard exists for degenerate geometry — a crossfade duration that
rounds to zero frames yields crossfade_frame_size 0 and
sola_buffer_frame_size 0, and the recalculate branch installs this geometry
and the resulting empty fade windows unchanged instead of rejecting or
clamping it. -/
theorem degenerate_geometry_unguarded :
    (computeGeometryUpdate
        ⟨48000, 40000, 3/10, 1/1000, 2⟩).crossfade_frame_size = 0 ∧
    (computeGeometryUpdate
        ⟨48000, 40000, 3/10, 1/1000, 2⟩).sola_buffer_frame_size = 0 ∧
    (update_recalculate 48000 degenerateState
        ⟨[], [], []⟩).1.crossfade_frame_size = 0 ∧
    (update_recalculate 48000 degenerateState
        ⟨[], [], []⟩).1.sola_buffer_frame_size = 0 ∧
    (update_recalculate 48000 degenerateState
        ⟨[], [], []⟩).1.fade_in_window = [] ∧
    (update_recalculate 48000 degenerateState
        ⟨[], [], []⟩).1.fade_out_window = [] := by
  have hcf : (computeGeometryUpdate
      ⟨48000, 40000, 3/10, 1/1000, 2⟩).crossfade_frame_size = 0 := by
    norm_num [computeGeometryUpdate, roundAsUsize, rustRound, round_eq]
  have hsola : (computeGeometryUpdate
      ⟨48000, 40000, 3/10, 1/1000, 2⟩).sola_buffer_frame_size = 0 := by
    norm_num [computeGeometryUpdate, roundAsUsize, rustRound, round_eq]
  have hstate : (⟨48000, degenerateState.model_output_sample_rate,
      degenerateState.sample_length, degenerateState.crossfade_length,
      degenerateState.extra_inference_time⟩ : GeometryInput) =
      ⟨48000, 40000, 3/10, 1/1000, 2⟩ := rfl
  refine ⟨hcf, hsola, ?_, ?_, ?_, ?_⟩
  · simp only [update_recalculate, hstate]
    exact hcf
  · simp only [update_recalculate, hstate]
    exact hsola
  · simp only [update_recalculate, hstate, hsola]
    simp [fade_in_window, linspace01]
  · simp only [update_recalculate, hstate, hsola]
    simp [fade_out_window, fade_in_window, linspace01]

theorem get_sola_offset_search_one (reference sola : List ℝ) (n : ℕ) :
    get_sola_offset reference sola n 1 = 0 := by
  have h1 : List.range 1 = [0] := rfl
  simp [get_sola_offset, h1]

/-- The emitted chunk of process_one_frame, written out: the first
sample_frame_size samples of the offset output buffer whose head of
sola_buffer_frame_size samples is crossfaded against the stored SOLA
buffer. -/
theorem process_one_frame_emitted (x : List ℝ) (s : EngineState) :
    (process_one_frame x s).1 =
      (((List.range s.sola_buffer_frame_size).map (fun i =>
          ((s.upsampler (inference_output s)).drop
              (get_sola_offset (slide_buffer s.input_buffer s.sample_frame_size x)
                s.sola_buffer s.sola_buffer_frame_size
                s.sola_search_frame_size)).getD i 0 *
            s.fade_in_window.getD i 0 +
          s.sola_buffer.getD i 0 * s.fade_out_window.getD i 0)) ++
        (((s.upsampler (inference_output s)).drop
            (get_sola_offset (slide_buffer s.input_buffer s.sample_frame_size x)
              s.sola_buffer s.sola_buffer_frame_size
              s.sola_search_frame_size)).drop
          s.sola_buffer_frame_size)).take s.sample_frame_size := rfl

/-- C8: a worker iteration with at least sample_frame_size queued input
samples removes exactly sample_frame_size samples from the head of the input
queue, appends exactly the frame-processor result to the output queue, and
that result is exactly the first sample_frame_size samples of the offset,
blended output buffer: it has length sample_frame_size, its head of
sola_buffer_frame_size samples is the fade-blend of the offset upsampled
buffer with the stored SOLA buffer, and the rest is the offset upsampled
buffer unchanged. -/
theorem worker_iteration_exact (q : Queues) (s : EngineState)
    (hlen : s.sample_frame_size ≤ q.input.length)
    (hout : get_sola_offset
        (slide_buffer s.input_buffer s.sample_frame_size
          (q.input.take s.sample_frame_size)) s.sola_buffer
        s.sola_buffer_frame_size s.sola_search_frame_size +
        s.sample_frame_size + s.sola_buffer_frame_size ≤
      (s.upsampler (inference_output s)).length) :
    (thread_loop_iter q s).1.input = q.input.drop s.sample_frame_size ∧
    (thread_loop_iter q s).1.output =
      q.output ++ (process_one_frame (q.input.take s.sample_frame_size) s).1 ∧
    (thread_loop_iter q s).2 =
      (process_one_frame (q.input.take s.sample_frame_size) s).2 ∧
    (process_one_frame (q.input.take s.sample_frame_size) s).1.length =
      s.sample_frame_size ∧
    (∀ k, k < s.sample_frame_size →
      (process_one_frame (q.input.take s.sample_frame_size) s).1.getD k 0 =
        if k < s.sola_buffer_frame_size then
          (s.upsampler (inference_output s)).getD
              (get_sola_offset
                (slide_buffer s.input_buffer s.sample_frame_size
                  (q.input.take s.sample_frame_size)) s.sola_buffer
                s.sola_buffer_frame_size s.sola_search_frame_size + k) 0 *
              s.fade_in_window.getD k 0 +
            s.sola_buffer.getD k 0 * s.fade_out_window.getD k 0
        else
          (s.upsampler (inference_output s)).getD
            (get_sola_offset
              (slide_buffer s.input_buffer s.sample_frame_size
                (q.input.take s.sample_frame_size)) s.sola_buffer
              s.sola_buffer_frame_size s.sola_search_frame_size + k) 0) := by
  have hnot : ¬ q.input.length < s.sample_frame_size := not_lt.mpr hlen
  refine ⟨by simp [thread_loop_iter, hnot], by simp [thread_loop_iter, hnot],
    by simp [thread_loop_iter, hnot], ?_, ?_⟩
  · rw [process_one_frame_emitted]
    rw [List.length_take, List.length_append, List.length_map,
      List.length_range, List.length_drop, List.length_drop]
    omega
  · intro k hk
    rw [process_one_frame_emitted]
    rw [getD_take _ _ _ _ hk]
    by_cases hkm : k < s.sola_buffer_frame_size
    · rw [getD_append_left _ _ _ _ (by
        rw [List.length_map, List.length_range]
        exact hkm)]
      rw [range_map_getD _ _ _ hkm, getD_drop, if_pos hkm]
    · have hmk : s.sola_buffer_frame_size ≤ k := not_lt.mp hkm
      rw [getD_append_right _ _ _ _ (by
        rw [List.length_map, List.length_range]
        exact hmk)]
      rw [List.length_map, List.length_range, getD_drop, getD_drop,
        if_neg hkm]
      congr 1
      omega

/-- Witness for `worker_iteration_exact` on a concrete one-sample state. -/
theorem worker_iteration_exact_witness :
    (witnessState.sample_frame_size ≤ witnessQueues.input.length ∧
      get_sola_offset
        (slide_buffer witnessState.input_buffer witnessState.sample_frame_size
          (witnessQueues.input.take witnessState.sample_frame_size))
        witnessState.sola_buffer witnessState.sola_buffer_frame_size
        witnessState.sola_search_frame_size +
        witnessState.sample_frame_size + witnessState.sola_buffer_frame_size ≤
      (witnessState.upsampler (inference_output witnessState)).length) ∧
    ((thread_loop_iter witnessQueues witnessState).1.input =
        witnessQueues.input.drop witnessState.sample_frame_size ∧
      (thread_loop_iter witnessQueues witnessState).1.output =
        witnessQueues.output ++
          (process_one_frame
            (witnessQueues.input.take witnessState.sample_frame_size)
            witnessState).1 ∧
      (thread_loop_iter witnessQueues witnessState).2 =
        (process_one_frame
          (witnessQueues.input.take witnessState.sample_frame_size)
          witnessState).2 ∧
      (process_one_frame
          (witnessQueues.input.take witnessState.sample_frame_size)
          witnessState).1.length = witnessState.sample_frame_size ∧
      (∀ k, k < witnessState.sample_frame_size →
        (process_one_frame
            (witnessQueues.input.take witnessState.sample_frame_size)
            witnessState).1.getD k 0 =
          if k < witnessState.sola_buffer_frame_size then
            (witnessState.upsampler (inference_output witnessState)).getD
                (get_sola_offset
                  (slide_buffer witnessState.input_buffer
                    witnessState.sample_frame_size
                    (witnessQueues.input.take
                      witnessState.sample_frame_size))
                  witnessState.sola_buffer
                  witnessState.sola_buffer_frame_size
                  witnessState.sola_search_frame_size + k) 0 *
                witnessState.fade_in_window.getD k 0 +
              witnessState.sola_buffer.getD k 0 *
                witnessState.fade_out_window.getD k 0
          else
            (witnessState.upsampler (inference_output witnessState)).getD
              (get_sola_offset
                (slide_buffer witnessState.input_buffer
                  witnessState.sample_frame_size
                  (witnessQueues.input.take witnessState.sample_frame_size))
                witnessState.sola_buffer witnessState.sola_buffer_frame_size
                witnessState.sola_search_frame_size + k) 0)) := by
  have hlen : witnessState.sample_frame_size ≤ witnessQueues.input.length := by
    norm_num [witnessState, witnessQueues]
  have hout : get_sola_offset
      (slide_buffer witnessState.input_buffer witnessState.sample_frame_size
        (witnessQueues.input.take witnessState.sample_frame_size))
      witnessState.sola_buffer witnessState.sola_buffer_frame_size
      witnessState.sola_search_frame_size +
      witnessState.sample_frame_size + witnessState.sola_buffer_frame_size ≤
      (witnessState.upsampler (inference_output witnessState)).length := by
    simp only [witnessState, witnessQueues]
    rw [get_sola_offset_search_one]
    simp
  exact ⟨⟨hlen, hout⟩, worker_iteration_exact witnessQueues witnessState hlen hout⟩

end ObsRvc
